import Mathlib

/- Shallow embedding of the websocket-nats gateway (package websocketnats).

   The Go program keeps a heap of mutable `Connection` objects reachable by
   pointer from three registry maps.  We model pointer identity by a natural
   number key into an explicit heap `Nat → ConnData`, the three Go maps by
   association lists with Go map semantics (lookup / delete / replace-or-add
   insert), and machine integers (ConnectionID is int64, the counter is int,
   unix times are int64) by `Int`.  Outbound writes and close frames are
   observations: each connection records the text frames sent to it and the
   `(code, reason)` arguments of every `Close` call made on it. -/

/-- Close code websocket.CloseNormalClosure (RFC 6455 / gorilla constant 1000). -/
def closeNormalClosure : Int := 1000

/-- Close code websocket.CloseGoingAway (1001), used for "OneConnectionPerDevice". -/
def closeGoingAway : Int := 1001

/-- Close code websocket.ClosePolicyViolation (1008), used for the "Auth" sweep. -/
def closePolicyViolation : Int := 1008

/-- Close code websocket.CloseInternalServerErr (1011), used on read errors. -/
def closeInternalServerErr : Int := 1011

/-- Constant MaxUnLoggedConnectionCount from the gateway source. -/
def MaxUnLoggedConnectionCount : Int := 200

/-- Constant UnLoggedConnectionTimeout (seconds) from the gateway source. -/
def UnLoggedConnectionTimeout : Int := 60

/-- Go map lookup `m[k]` on an association list (first binding wins). -/
def alookup {α β : Type} [DecidableEq α] : List (α × β) → α → Option β
  | [], _ => none
  | p :: t, k => if p.1 = k then some p.2 else alookup t k

/-- Go map `delete(m, k)` on an association list. -/
def aerase {α β : Type} [DecidableEq α] : List (α × β) → α → List (α × β)
  | [], _ => []
  | p :: t, k => if p.1 = k then aerase t k else p :: aerase t k

/-- Go map assignment `m[k] = v` on an association list (replace or append). -/
def ainsert {α β : Type} [DecidableEq α] (l : List (α × β)) (k : α) (v : β) :
    List (α × β) :=
  aerase l k ++ [(k, v)]

/-- Mutable fields of a Go `Connection` plus its observable output history:
`sentTexts` records every `SendText` payload, `closeCalls` records the
`(code, reason)` arguments of every `Close` call on the connection. -/
structure ConnData where
  id : Int
  userID : String
  deviceID : String
  startTime : Int
  sentTexts : List String
  closeCalls : List (Int × String)
deriving Repr, DecidableEq

/-- Function update on the connection heap. -/
def hupd (h : Nat → ConnData) (k : Nat) (d : ConnData) : Nat → ConnData :=
  fun q => if q = k then d else h q

/-- Connection.GetInfo: returns (id, userID, deviceID). -/
def GetInfo (d : ConnData) : Int × String × String :=
  (d.id, d.userID, d.deviceID)

/-- NewConnection: fresh connection with empty identity and the given start time. -/
def NewConnection (cid : Int) (now : Int) : ConnData :=
  { id := cid, userID := "", deviceID := "", startTime := now,
    sentTexts := [], closeCalls := [] }

/-- Connection.Close: records the (code, reason) arguments, then resets
id to the sentinel -1 and clears the identity fields, as the source does. -/
def Close (code : Int) (reason : String) (d : ConnData) : ConnData :=
  { d with closeCalls := d.closeCalls ++ [(code, reason)],
           id := -1, userID := "", deviceID := "" }

/-- Connection.Login: stores the resolved userID and deviceID on the connection. -/
def ConnLogin (userID deviceID : String) (d : ConnData) : ConnData :=
  { d with userID := userID, deviceID := deviceID }

/-- Connection.IsLoggedIn: a connection is logged in iff its userID is nonempty. -/
def IsLoggedIn (d : ConnData) : Bool :=
  decide (d.userID ≠ "")

/-- ConnectionsStorage: the three registry maps (values are heap keys standing
for `*Connection` pointers) and the incrementally maintained counter. -/
structure ConnectionsStorage where
  connectionsByID : List (Int × Nat)
  connectionsByUserID : List (String × List (String × Nat))
  connectionsByDeviceID : List (String × Nat)
  numberOfNotLoggedConnections : Int
deriving Repr, DecidableEq

/-- NewConnectionsStorage: all maps empty, counter zero. -/
def NewConnectionsStorage : ConnectionsStorage :=
  { connectionsByID := [], connectionsByUserID := [],
    connectionsByDeviceID := [], numberOfNotLoggedConnections := 0 }

/-- ConnectionsStats as returned by GetStats. -/
structure ConnectionsStats where
  NumberOfUsers : Int
  NumberOfDevices : Int
  NumberOfNotLoggedConnections : Int
deriving Repr, DecidableEq

/-- ConnectionsStorage.GetStats. -/
def GetStats (s : ConnectionsStorage) : ConnectionsStats :=
  { NumberOfUsers := Int.ofNat s.connectionsByUserID.length,
    NumberOfDevices := Int.ofNat s.connectionsByDeviceID.length,
    NumberOfNotLoggedConnections := s.numberOfNotLoggedConnections }

/-- ConnectionsStorage.AddNewConnection: increments the not-logged counter and
inserts the connection into the by-id map under its current id. -/
def AddNewConnection (heap : Nat → ConnData) (k : Nat) (s : ConnectionsStorage) :
    ConnectionsStorage :=
  { s with numberOfNotLoggedConnections := s.numberOfNotLoggedConnections + 1,
           connectionsByID := ainsert s.connectionsByID (heap k).id k }

/-- ConnectionsStorage.removeConnection (the lock-free inner helper): reads the
connection's current (id, userID, deviceID); no-op unless the by-id map has an
entry at that id; otherwise deletes the by-id entry, and then either decrements
the counter (no identity) or cleans the by-user and by-device maps. -/
def removeConnection (heap : Nat → ConnData) (k : Nat) (s : ConnectionsStorage) :
    ConnectionsStorage :=
  let info := GetInfo (heap k)
  match alookup s.connectionsByID info.1 with
  | none => s
  | some _ =>
    let s := { s with connectionsByID := aerase s.connectionsByID info.1 }
    if info.2.1 = "" then
      { s with numberOfNotLoggedConnections := s.numberOfNotLoggedConnections - 1 }
    else
      let s :=
        match alookup s.connectionsByUserID info.2.1 with
        | none => s
        | some userConnections =>
          let userConnections := aerase userConnections info.2.2
          if userConnections.length = 0 then
            { s with connectionsByUserID := aerase s.connectionsByUserID info.2.1 }
          else
            { s with connectionsByUserID :=
                ainsert s.connectionsByUserID info.2.1 userConnections }
      match alookup s.connectionsByDeviceID info.2.2 with
      | none => s
      | some _ =>
        { s with connectionsByDeviceID := aerase s.connectionsByDeviceID info.2.2 }

/-- ConnectionsStorage.OnLogin: if the connection carries a userID, decrement
the counter, excise any previous connection on the same device, install the
connection in the by-device and by-user maps, and return the evicted
connection (as the source does, without closing it). -/
def OnLogin (heap : Nat → ConnData) (k : Nat) (s : ConnectionsStorage) :
    ConnectionsStorage × Option Nat :=
  let info := GetInfo (heap k)
  if info.2.1 = "" then (s, none)
  else
    let s := { s with numberOfNotLoggedConnections :=
                 s.numberOfNotLoggedConnections - 1 }
    let before := alookup s.connectionsByDeviceID (heap k).deviceID
    let s :=
      match before with
      | some bk => removeConnection heap bk s
      | none => s
    let s := { s with connectionsByDeviceID :=
                 ainsert s.connectionsByDeviceID info.2.2 k }
    let userConnections := (alookup s.connectionsByUserID info.2.1).getD []
    let userConnections := ainsert userConnections info.2.2 k
    let s := { s with connectionsByUserID :=
                 ainsert s.connectionsByUserID info.2.1 userConnections }
    (s, before)

/-- GState: the whole gateway-visible state — the connection heap, the registry,
the id allocator (lastConnectionNumber), a fresh-key allocator for the heap, the
number of successful bus-pool leases, and the installed bus subscriptions as
(topic, connection key) pairs. -/
structure GState where
  heap : Nat → ConnData
  storage : ConnectionsStorage
  lastConnectionNumber : Int
  nextKey : Nat
  leases : Nat
  subs : List (String × Nat)

/-- Initial gateway state: empty heap (all-default connections), empty storage. -/
def initialGState : GState :=
  { heap := fun _ => NewConnection 0 0, storage := NewConnectionsStorage,
    lastConnectionNumber := 0, nextKey := 0, leases := 0, subs := [] }

/-- Connection.SendText on a heap key: appends the message to the connection's
sent-frame history. -/
def sendText (k : Nat) (msg : String) (gs : GState) : GState :=
  let d := gs.heap k
  { gs with heap := hupd gs.heap k { d with sentTexts := d.sentTexts ++ [msg] } }

/-- Close on a heap key, updating the heap in place. -/
def closeConn (k : Nat) (code : Int) (reason : String) (gs : GState) : GState :=
  { gs with heap := hupd gs.heap k (Close code reason (gs.heap k)) }

/-- ConnectionsStorage.RemoveConnection (the exported, locking wrapper). -/
def RemoveConnection (k : Nat) (gs : GState) : GState :=
  { gs with storage := removeConnection gs.heap k gs.storage }

/-- One iteration of the RemoveIf range loop: if the condition holds for the
connection, delete its by-id entry, its by-device entry when deviceID is
nonempty, apply the source's by-user cleanup (which drops the whole user entry
whenever the inner map has exactly one element), and then run afterRemove on
the connection.  Note: unlike removeConnection, no counter update is made. -/
def removeIfStep (cond : ConnData → Bool) (afterRemove : ConnData → ConnData)
    (gs : GState) (p : Int × Nat) : GState :=
  let d := gs.heap p.2
  if cond d then
    let info := GetInfo d
    let s := gs.storage
    let s := { s with connectionsByID := aerase s.connectionsByID p.1 }
    let s :=
      if info.2.2 = "" then s
      else { s with connectionsByDeviceID :=
               aerase s.connectionsByDeviceID info.2.2 }
    let s :=
      if info.2.1 = "" then s
      else
        match alookup s.connectionsByUserID info.2.1 with
        | none => s
        | some userConnections =>
          if userConnections.length = 1 then
            { s with connectionsByUserID := aerase s.connectionsByUserID info.2.1 }
          else
            let userConnections := aerase userConnections info.2.2
            { s with connectionsByUserID :=
                ainsert s.connectionsByUserID info.2.1 userConnections }
    { gs with storage := s, heap := hupd gs.heap p.2 (afterRemove d) }
  else gs

/-- ConnectionsStorage.RemoveIf: ranges over the by-id map (modelled as a fold
over its current entry list) and applies removeIfStep to each entry. -/
def RemoveIf (cond : ConnData → Bool) (afterRemove : ConnData → ConnData)
    (gs : GState) : GState :=
  gs.storage.connectionsByID.foldl (removeIfStep cond afterRemove) gs

/-- Character list of the scheme separator "Bearer " used by ResolveIDToken. -/
def bearerSep : List Char :=
  ['B', 'e', 'a', 'r', 'e', 'r', ' ']

/-- Boolean prefix test on character lists (element-wise comparison). -/
def leadsWith : List Char → List Char → Bool
  | [], _ => true
  | _ :: _, [] => false
  | a :: as, b :: bs => if a = b then leadsWith as bs else false

/-- Go strings.Split(token, "Bearer "): splits around every leftmost,
non-overlapping occurrence of the separator.  The recursion is structural: when
the seven separator characters are present they are consumed at once. -/
def goSplit : List Char → List (List Char)
  | [] => [[]]
  | 'B' :: 'e' :: 'a' :: 'r' :: 'e' :: 'r' :: ' ' :: rest => [] :: goSplit rest
  | c :: rest =>
    match goSplit rest with
    | [] => [[c]]
    | seg :: segs => (c :: seg) :: segs

/-- Occurrence test: does the character list contain "Bearer " as a substring? -/
def hasBearer : List Char → Bool
  | [] => false
  | c :: rest => leadsWith bearerSep (c :: rest) || hasBearer rest

/-- ResolveIDToken from jwt.go: valid iff strings.Split(token, "Bearer ")
yields exactly two segments; the id token is then the second segment, and the
zero value "" is returned otherwise. -/
def ResolveIDToken (token : String) : String × Bool :=
  match goSplit token.toList with
  | [_, s] => (String.mk s, true)
  | _ => ("", false)

/-- Dynamic value of a jwt.MapClaims entry (a Go interface value); only
whether it is a string matters to the gateway. -/
inductive GoVal where
  | str (s : String)
  | other
deriving Repr, DecidableEq

/-- Claims: the jwt.MapClaims map, as an association list. -/
abbrev Claims : Type := List (String × GoVal)

/-- The claim-to-userID resolution performed inline by the gateway's login:
`claims["userId"].(string)` when the key is present, otherwise
`claims["name"].(string)`.  `none` models the Go type-assertion panic raised
when the selected value is absent (nil interface) or not a string. -/
def resolveUserID (claims : Claims) : Option String :=
  match alookup claims "userId" with
  | some (GoVal.str s) => some s
  | some GoVal.other => none
  | none =>
    match alookup claims "name" with
    | some (GoVal.str s) => some s
    | _ => none

/-- Config: the gateway configuration fields the modelled code consults. -/
structure Config where
  natsTopics : List String
  remoteAddr : String

/-- Go helper contains(source, target) from the gateway source. -/
def containsGo : List String → String → Bool
  | [], _ => false
  | e :: rest, target => if e = target then true else containsGo rest target

/-- Outcome of a modelled handler invocation: a normal return (all protocol
replies included) or a runtime panic escaping the handler. -/
inductive LoginOutcome where
  | replied
  | panicked
deriving Repr, DecidableEq

/-- NatsWebSocket.login, with the external authenticator (ParseJWT plus the
token.Valid check) abstracted as an oracle `auth` from the id token to
`some claims` on success and `none` on any validation error. -/
def login (cfg : Config) (auth : String → Option Claims) (k : Nat)
    (tokenBinary : String) (gs : GState) : GState × LoginOutcome :=
  let r := ResolveIDToken tokenBinary
  if r.2 = false then
    (sendText k "login>:Not Authorized" gs, LoginOutcome.replied)
  else
    match auth r.1 with
    | none => (sendText k "login>:Not Authorized" gs, LoginOutcome.replied)
    | some claims =>
      match resolveUserID claims with
      | none => (gs, LoginOutcome.panicked)
      | some userID =>
        let deviceID := cfg.remoteAddr
        let conUserID := (GetInfo (gs.heap k)).2.1
        if conUserID ≠ "" then
          if conUserID ≠ userID then
            (sendText k "go away" gs, LoginOutcome.replied)
          else
            (sendText k "ok" gs, LoginOutcome.replied)
        else
          let heap := hupd gs.heap k (ConnLogin userID deviceID (gs.heap k))
          let gs := { gs with heap := heap }
          let p := OnLogin gs.heap k gs.storage
          let gs := { gs with storage := p.1 }
          match p.2 with
          | some bk =>
            let gs := closeConn bk closeGoingAway "OneConnectionPerDevice" gs
            let gs := RemoveConnection bk gs
            (sendText k "ok" gs, LoginOutcome.replied)
          | none => (sendText k "ok" gs, LoginOutcome.replied)

/-- NatsWebSocket.registerConnection: allocate a fresh connection id and heap
slot, create the connection, and AddNewConnection it to the storage. -/
def registerConnection (now : Int) (gs : GState) : GState × Nat :=
  let cid := gs.lastConnectionNumber + 1
  let k := gs.nextKey
  let gs := { gs with lastConnectionNumber := cid, nextKey := k + 1,
                      heap := hupd gs.heap k (NewConnection cid now) }
  ({ gs with storage := AddNewConnection gs.heap k gs.storage }, k)

/-- NatsWebSocket.onClose: no-op when the connection id is already the sentinel
-1, otherwise unregisterConnection (RemoveConnection). -/
def onClose (k : Nat) (gs : GState) : GState :=
  if (GetInfo (gs.heap k)).1 = -1 then gs else RemoveConnection k gs

/-- The read-error branch of handleInputMessages: Close with
CloseInternalServerErr / "ServerError", then onClose. -/
def handleReadError (k : Nat) (gs : GState) : GState :=
  onClose k (closeConn k closeInternalServerErr "ServerError" gs)

/-- NatsWebSocket.cleanConnectionsIfNeed: when the not-logged counter exceeds
MaxUnLoggedConnectionCount, RemoveIf over "now - startTime >
UnLoggedConnectionTimeout" closing each removed connection with
(ClosePolicyViolation, "Auth").  Note the condition does not test login state. -/
def cleanConnectionsIfNeed (now : Int) (gs : GState) : GState :=
  let stats := GetStats gs.storage
  if stats.NumberOfNotLoggedConnections > MaxUnLoggedConnectionCount then
    RemoveIf (fun con => decide (now - con.startTime > UnLoggedConnectionTimeout))
      (Close closePolicyViolation "Auth") gs
  else gs

/-- Outcome of setupSubsrciber.  log.Fatalf (used on pool lease failure and on
bus subscribe failure) logs and then calls os.Exit(1), so those two outcomes
terminate the whole process. -/
inductive SubOutcome where
  | repliedInvalidTopic
  | exitLease
  | exitSubscribe
  | subscribed
deriving Repr, DecidableEq

/-- Whether the gateway process is still running after the outcome (false
exactly for the two log.Fatalf outcomes). -/
def SubOutcome.continues : SubOutcome → Bool
  | SubOutcome.exitLease => false
  | SubOutcome.exitSubscribe => false
  | _ => true

/-- NatsWebSocket.setupSubsrciber, with pool lease and bus subscribe success
abstracted as booleans: reject a topic outside the allow-list with an
"invalid topic" reply; on lease failure log.Fatalf (process exit, no reply);
otherwise count the lease, and either log.Fatalf on subscribe failure or
record the installed (topic, connection) subscription.  No reply on success. -/
def setupSubsrciber (cfg : Config) (leaseOk subscribeOk : Bool) (k : Nat)
    (topic : String) (gs : GState) : GState × SubOutcome :=
  if containsGo cfg.natsTopics topic = false then
    (sendText k "invalid topic" gs, SubOutcome.repliedInvalidTopic)
  else if leaseOk = false then
    (gs, SubOutcome.exitLease)
  else
    let gs := { gs with leases := gs.leases + 1 }
    if subscribeOk = false then
      (gs, SubOutcome.exitSubscribe)
    else
      ({ gs with subs := gs.subs ++ [(topic, k)] }, SubOutcome.subscribed)

/-- Fuel-indexed evaluation of Connection.IsClosed, whose Go body is exactly
`return c.IsClosed()`: each unit of fuel allows one unfolding of the body, and
the evaluation yields `some b` only if a value is ever returned. -/
def isClosedStep : Nat → Option Bool
  | 0 => none
  | n + 1 => isClosedStep n

/-- Number of entries of the by-id map whose connection holds no identity. -/
def unauthInByID (heap : Nat → ConnData) : List (Int × Nat) → Nat
  | [] => 0
  | p :: t => (if (heap p.2).userID = "" then 1 else 0) + unauthInByID heap t

/-- Configuration used by the concrete scenarios, mirroring the repository's
test file (allow-listed topics and a fixed remote-address device value). -/
def cfgT : Config :=
  { natsTopics := ["test.a", "test.b"], remoteAddr := "127.0.0.1" }

/-- Concrete authenticator oracle for scenarios: token "t1" carries alice's
userId claim, "t2" bob's, "t0" validates but carries an empty claim set, and
every other token fails validation. -/
def authT : String → Option Claims := fun t =>
  if t = "t1" then some [("userId", GoVal.str "alice")]
  else if t = "t2" then some [("userId", GoVal.str "bob")]
  else if t = "t0" then some []
  else none

/-- Gateway state after accepting a single connection at time 0 (heap key 0,
connection id 1). -/
def regOne : GState :=
  (registerConnection 0 initialGState).1

/-- State after the accept-triggered sweep runs over `regOne` at time 100:
the sole (unauthenticated, 100-second-old) connection is removed and closed. -/
def sweptOne : GState :=
  RemoveIf (fun d => decide ((100 : Int) - d.startTime > UnLoggedConnectionTimeout))
    (Close closePolicyViolation "Auth") regOne

/-- Two-session scenario: two connections are accepted (heap keys 0 and 1,
ids 1 and 2) and then log in one after the other with the given login-frame
payloads; both resolve to the device `cfg.remoteAddr`. -/
def oneDeviceScenario (cfg : Config) (auth : String → Option Claims)
    (tb1 tb2 : String) : GState :=
  let p1 := registerConnection 0 initialGState
  let p2 := registerConnection 0 p1.1
  let gs3 := (login cfg auth p1.2 tb1 p2.1).1
  (login cfg auth p2.2 tb2 gs3).1

/-- A gateway state whose not-logged counter reads 201 while the by-id map
holds one old authenticated session (heap key 0, id 1).  Such counter drift is
reachable through the code itself: RemoveIf never decrements the counter (see
the C1 result), so 201 earlier registered-and-swept sessions leave it at 201. -/
def overloadedAuthState : GState :=
  { heap := fun _ =>
      { id := 1, userID := "alice", deviceID := "127.0.0.1", startTime := 0,
        sentTexts := [], closeCalls := [] },
    storage :=
      { connectionsByID := [(1, 0)],
        connectionsByUserID := [("alice", [("127.0.0.1", 0)])],
        connectionsByDeviceID := [("127.0.0.1", 0)],
        numberOfNotLoggedConnections := 201 },
    lastConnectionNumber := 1, nextKey := 1, leases := 0, subs := [] }

/-- Gateway state after accepting one connection and logging it in as alice. -/
def loggedOne : GState :=
  (login cfgT authT 0 "Bearer t1" regOne).1

/-- Reading the heap at the updated key yields the new value. -/
theorem hupd_self (h : Nat → ConnData) (k : Nat) (d : ConnData) :
    hupd h k d k = d := by
  simp [hupd]

/-- Reading the heap at any other key is unchanged by an update. -/
theorem hupd_other (h : Nat → ConnData) (k q : Nat) (d : ConnData)
    (hq : q ≠ k) : hupd h k d q = h q := by
  simp [hupd, hq]

/-- The Go contains helper decides list membership. -/
theorem containsGo_eq_true_iff (l : List String) (t : String) :
    containsGo l t = true ↔ t ∈ l := by
  induction l with
  | nil => simp [containsGo]
  | cons e rest ih =>
    by_cases he : e = t
    · simp [containsGo, he]
    · simp [containsGo, he, ih]
      intro h
      exact absurd h.symm he

/-- The Go contains helper returns false exactly off the list. -/
theorem containsGo_eq_false_iff (l : List String) (t : String) :
    containsGo l t = false ↔ t ∉ l := by
  rw [← Bool.not_eq_true, not_iff_not, containsGo_eq_true_iff]

/-- C10: Connection.IsClosed never produces a value: its body is exactly a
recursive call to itself on the same connection, so under any finite unfolding
budget the fuel-indexed evaluation returns none — no call to IsClosed
terminates with a result, i.e. the method cannot be given as a total function. -/
theorem c10_isclosed_never_returns : ∀ n : Nat, isClosedStep n = none := by
  intro n
  induction n with
  | zero => rfl
  | succ m ih => simpa [isClosedStep] using ih

/-- C1: the cross-mapping counter invariant is broken by sweep-based removals:
after registering one (unauthenticated) connection and running the sweep's
RemoveIf at time 100 — which removes and closes that connection — the stored
not-logged counter still reads 1 while the by-id map holds 0 sessions without
identity, so stats().unauthenticatedCount differs from the number of
identity-free sessions in the by-id mapping.  RemoveIf deletes by-id entries
without ever touching numberOfNotLoggedConnections. -/
theorem c1_sweep_skips_counter_decrement :
    (GetStats sweptOne.storage).NumberOfNotLoggedConnections = 1
    ∧ sweptOne.storage.connectionsByID = []
    ∧ unauthInByID sweptOne.heap sweptOne.storage.connectionsByID = 0
    ∧ (sweptOne.heap 0).closeCalls = [(closePolicyViolation, "Auth")] := by
  refine ⟨by decide, by decide, by decide, by decide⟩

/-- C4: transport-failure cleanup never removes the session from the registry:
Connection.Close resets the connection id to -1 before onClose runs, so onClose
always takes its sentinel early-return and the registry is left untouched (first
conjunct, for every session and state); concretely, after a registered
connection's read loop observes a read error, the session is closed with
(CloseInternalServerErr, "ServerError") yet its by-id entry is still present,
contradicting the claim that it is absent. -/
theorem c4_read_error_leaves_registry_entry :
    (∀ (k : Nat) (gs : GState), (handleReadError k gs).storage = gs.storage)
    ∧ alookup (handleReadError 0 regOne).storage.connectionsByID 1 = some 0
    ∧ ((handleReadError 0 regOne).heap 0).closeCalls
        = [(closeInternalServerErr, "ServerError")] := by
  refine ⟨?_, by decide, by decide⟩
  intro k gs
  simp [handleReadError, closeConn, onClose, GetInfo, Close, hupd]

/-- Splitting a list that starts with the separator yields a leading empty
segment followed by the split of the remainder. -/
theorem goSplit_bearer_append (l : List Char) :
    goSplit (bearerSep ++ l) = [] :: goSplit l := rfl

/-- A list without any "Bearer " occurrence splits into itself alone. -/
theorem goSplit_of_hasBearer_false :
    ∀ l : List Char, hasBearer l = false → goSplit l = [l] := by
  intro l
  induction l using goSplit.induct with
  | case1 => intro _; rfl
  | case2 rest ih =>
    intro h
    exfalso
    simp [hasBearer, leadsWith, bearerSep] at h
  | case3 c rest hne heq ih =>
    intro h
    simp [hasBearer] at h
    rw [ih h.2] at heq
    exact absurd heq (by simp)
  | case4 c rest hne seg segs heq ih =>
    intro h
    simp [hasBearer] at h
    have hr := ih h.2
    rw [heq] at hr
    obtain ⟨h1, h2⟩ := List.cons_eq_cons.mp hr
    subst h1; subst h2
    rw [goSplit]
    · rw [heq]
    · exact hne

/-- C5 counterexample: the token "xBearer t" does not begin with the scheme
prefix "Bearer " (second conjunct), yet ResolveIDToken reports it valid and
yields "t", because the source splits on "Bearer " as a substring rather than
stripping it as a prefix.  This falsifies "the token is accepted only if it
begins with exactly the scheme prefix". -/
theorem c5_counterexample :
    ResolveIDToken "xBearer t" = ("t", true)
    ∧ leadsWith bearerSep "xBearer t".toList = false := by
  exact ⟨by decide, by decide⟩

/-- C5 amended: ResolveIDToken accepts a token iff splitting it on the
substring "Bearer " yields exactly two segments, yielding the second segment;
in particular every token of the form "Bearer " ++ rest with no further
occurrence of "Bearer " in rest is accepted and yields rest (first conjunct),
and whenever ResolveIDToken reports invalid, the gateway replies
"login>:Not Authorized" and the session keeps its identity state and stays
open (second conjunct). -/
theorem c5_amended_split_semantics :
    (∀ l : List Char, hasBearer l = false →
        ResolveIDToken (String.mk (bearerSep ++ l)) = (String.mk l, true))
    ∧ (∀ (cfg : Config) (auth : String → Option Claims) (k : Nat)
          (tb : String) (gs : GState), (ResolveIDToken tb).2 = false →
        login cfg auth k tb gs
            = (sendText k "login>:Not Authorized" gs, LoginOutcome.replied)
        ∧ ((sendText k "login>:Not Authorized" gs).heap k).userID
            = (gs.heap k).userID
        ∧ ((sendText k "login>:Not Authorized" gs).heap k).closeCalls
            = (gs.heap k).closeCalls
        ∧ (sendText k "login>:Not Authorized" gs).storage = gs.storage) := by
  constructor
  · intro l h
    unfold ResolveIDToken
    rw [show (String.mk (bearerSep ++ l)).toList = bearerSep ++ l from rfl]
    rw [goSplit_bearer_append, goSplit_of_hasBearer_false l h]
  · intro cfg auth k tb gs h
    refine ⟨by simp [login, h], by simp [sendText, hupd],
            by simp [sendText, hupd], by simp [sendText]⟩

/-- Witness for c5_amended_split_semantics at a concrete token and state. -/
theorem c5_amended_split_semantics_witness :
    ResolveIDToken (String.mk (bearerSep ++ ['t'])) = (String.mk ['t'], true)
    ∧ login cfgT authT 0 "zzz" regOne
        = (sendText 0 "login>:Not Authorized" regOne, LoginOutcome.replied) := by
  exact ⟨c5_amended_split_semantics.1 ['t'] (by decide),
         (c5_amended_split_semantics.2 cfgT authT 0 "zzz" regOne (by decide)).1⟩

/-- C8: a subscribe command for a topic outside the allow-list, from a
logged-in session, is answered with "invalid topic"; no pool lease is taken,
no subscription is created, and the session is not closed. -/
theorem c8_invalid_topic_rejected (cfg : Config) (leaseOk subscribeOk : Bool)
    (gs : GState) (k : Nat) (topic : String)
    (hAuth : IsLoggedIn (gs.heap k) = true)
    (hTopic : topic ∉ cfg.natsTopics) :
    setupSubsrciber cfg leaseOk subscribeOk k topic gs
      = (sendText k "invalid topic" gs, SubOutcome.repliedInvalidTopic)
    ∧ (sendText k "invalid topic" gs).leases = gs.leases
    ∧ (sendText k "invalid topic" gs).subs = gs.subs
    ∧ ((sendText k "invalid topic" gs).heap k).closeCalls
        = (gs.heap k).closeCalls := by
  have hc : containsGo cfg.natsTopics topic = false :=
    (containsGo_eq_false_iff _ _).mpr hTopic
  refine ⟨by simp [setupSubsrciber, hc], by simp [sendText],
          by simp [sendText], by simp [sendText, hupd]⟩

/-- Witness for c8_invalid_topic_rejected: the logged-in alice session asks
for the non-allow-listed topic "paco.is.smart". -/
theorem c8_invalid_topic_rejected_witness :
    setupSubsrciber cfgT true true 0 "paco.is.smart" loggedOne
      = (sendText 0 "invalid topic" loggedOne, SubOutcome.repliedInvalidTopic) := by
  exact (c8_invalid_topic_rejected cfgT true true loggedOne 0 "paco.is.smart"
    (by decide) (by decide)).1

/-- C9 counterexample: with the allow-listed topic "test.a" and a failing pool
lease, setupSubsrciber reaches log.Fatalf, which terminates the whole process
(continues = false) — the failure is not confined to the enclosing subscribe
request and the session does not continue to be served.  No reply is sent
(last conjunct), as the claim says. -/
theorem c9_lease_failure_exits_process :
    (setupSubsrciber cfgT false true 0 "test.a" regOne).2 = SubOutcome.exitLease
    ∧ SubOutcome.continues
        (setupSubsrciber cfgT false true 0 "test.a" regOne).2 = false
    ∧ ((setupSubsrciber cfgT false true 0 "test.a" regOne).1.heap 0).sentTexts
        = (regOne.heap 0).sentTexts := by
  exact ⟨by decide, by decide, by decide⟩

/-- C9 amended: for an allow-listed topic, a pool lease failure or a bus
subscribe failure makes setupSubsrciber call log.Fatalf, which logs and then
terminates the entire gateway process; no reply is sent to the client and no
subscription is recorded, and the failure is not confined to the request. -/
theorem c9_amended_fatal_exit (cfg : Config) (gs : GState) (k : Nat)
    (topic : String) (sOk : Bool)
    (h : containsGo cfg.natsTopics topic = true) :
    (setupSubsrciber cfg false sOk k topic gs = (gs, SubOutcome.exitLease)
      ∧ SubOutcome.continues SubOutcome.exitLease = false)
    ∧ (setupSubsrciber cfg true false k topic gs
          = ({ gs with leases := gs.leases + 1 }, SubOutcome.exitSubscribe)
      ∧ SubOutcome.continues SubOutcome.exitSubscribe = false) := by
  refine ⟨⟨by simp [setupSubsrciber, h], rfl⟩,
          ⟨by simp [setupSubsrciber, h], rfl⟩⟩

/-- Witness for c9_amended_fatal_exit on the allow-listed topic "test.a". -/
theorem c9_amended_fatal_exit_witness :
    setupSubsrciber cfgT false true 0 "test.a" regOne
      = (regOne, SubOutcome.exitLease) := by
  exact (c9_amended_fatal_exit cfgT regOne 0 "test.a" true (by decide)).1.1

/-- A RemoveIf iteration leaves the heap unchanged at every other key. -/
theorem removeIfStep_heap_of_ne (cond : ConnData → Bool)
    (afterRemove : ConnData → ConnData) (gs : GState) (p : Int × Nat) (k : Nat)
    (hk : k ≠ p.2) :
    (removeIfStep cond afterRemove gs p).heap k = gs.heap k := by
  by_cases h : cond (gs.heap p.2)
  · simp [removeIfStep, h, hupd, hk]
  · simp [removeIfStep, h]

/-- A RemoveIf iteration whose condition holds applies afterRemove to its own
connection. -/
theorem removeIfStep_heap_self (cond : ConnData → Bool)
    (afterRemove : ConnData → ConnData) (gs : GState) (p : Int × Nat)
    (h : cond (gs.heap p.2) = true) :
    (removeIfStep cond afterRemove gs p).heap p.2 = afterRemove (gs.heap p.2) := by
  simp [removeIfStep, h, hupd]

/-- Folding RemoveIf iterations over entries that do not mention a key leaves
the heap unchanged at that key. -/
theorem foldl_removeIfStep_heap (cond : ConnData → Bool)
    (afterRemove : ConnData → ConnData) :
    ∀ (l : List (Int × Nat)) (gs : GState) (k : Nat), k ∉ l.map Prod.snd →
      (l.foldl (removeIfStep cond afterRemove) gs).heap k = gs.heap k := by
  intro l
  induction l with
  | nil => intro gs k _; rfl
  | cons p t ih =>
    intro gs k hk
    simp only [List.map_cons, List.mem_cons, not_or] at hk
    rw [List.foldl_cons, ih _ _ hk.2, removeIfStep_heap_of_ne _ _ _ _ _ hk.1]

/-- C3: the accept-triggered sweep closes authenticated sessions.  For any
state whose not-logged counter exceeds the ceiling, any session registered in
the by-id map that is AUTHENTICATED (userID nonempty) and older than the
timeout is closed by cleanConnectionsIfNeed with (ClosePolicyViolation,
"Auth") — the sweep predicate in the source tests only the age, never the
login state, contradicting the claim that the closed set is exactly the
unauthenticated-and-old sessions and that no authenticated session is ever
closed.  (The doc comment on UnLoggedConnectionTimeout says it is a timeout
for the un-logged-in connections, so the claim reflects the code's intent.) -/
theorem c3_sweep_closes_authenticated_session (now : Int) (gs : GState) (k : Nat)
    (cid : Int) (l1 l2 : List (Int × Nat))
    (hcount : gs.storage.numberOfNotLoggedConnections > MaxUnLoggedConnectionCount)
    (hsplit : gs.storage.connectionsByID = l1 ++ (cid, k) :: l2)
    (h1 : k ∉ l1.map Prod.snd) (h2 : k ∉ l2.map Prod.snd)
    (hauth : (gs.heap k).userID ≠ "")
    (hold : now - (gs.heap k).startTime > UnLoggedConnectionTimeout) :
    ((cleanConnectionsIfNeed now gs).heap k).closeCalls
      = (gs.heap k).closeCalls ++ [(closePolicyViolation, "Auth")] := by
  have hgate : (GetStats gs.storage).NumberOfNotLoggedConnections
      > MaxUnLoggedConnectionCount := by
    simpa [GetStats] using hcount
  unfold cleanConnectionsIfNeed
  rw [if_pos hgate]
  unfold RemoveIf
  rw [hsplit, List.foldl_append, List.foldl_cons]
  rw [foldl_removeIfStep_heap _ _ l2 _ k h2]
  have hheap1 : (l1.foldl (removeIfStep
      (fun con => decide (now - con.startTime > UnLoggedConnectionTimeout))
      (Close closePolicyViolation "Auth")) gs).heap k = gs.heap k :=
    foldl_removeIfStep_heap _ _ l1 gs k h1
  rw [removeIfStep_heap_self _ _ _ _ (by rw [hheap1]; simpa using hold)]
  rw [hheap1]
  simp [Close]

/-- Witness for c3_sweep_closes_authenticated_session: in a state whose
counter reads 201 with one authenticated session of age 61 registered, the
sweep closes that session. -/
theorem c3_sweep_closes_authenticated_session_witness :
    ((cleanConnectionsIfNeed 61 overloadedAuthState).heap 0).closeCalls
      = (overloadedAuthState.heap 0).closeCalls
          ++ [(closePolicyViolation, "Auth")] :=
  c3_sweep_closes_authenticated_session 61 overloadedAuthState 0 1 [] []
    (by decide) (by decide) (by decide) (by decide) (by decide) (by decide)

/-- C6 counterexample: the token "t0" passes validation (authT returns an
empty claim set) but the claims hold neither a "userId" nor a "name" entry,
so the login handler's unchecked type assertion panics: the outcome is
panicked, and no "login>:Not Authorized" reply is sent (the session's sent
frames stay empty) — the failure is not recovered locally, falsifying the
claim for claims lacking user-identifying fields. -/
theorem c6_counterexample :
    (login cfgT authT 0 "Bearer t0" regOne).2 = LoginOutcome.panicked
    ∧ ((login cfgT authT 0 "Bearer t0" regOne).1.heap 0).sentTexts = []
    ∧ authT "t0" = some []
    ∧ resolveUserID [] = none := by
  exact ⟨by decide, by decide, by decide, by decide⟩

/-- C6 amended: failures reported by the validator itself (ParseJWT error or
invalid token, modelled as auth returning none) are recovered locally — the
gateway replies "login>:Not Authorized" over the same session, which keeps
its identity state, is not closed, and whose registry entries are untouched;
however, a validated token whose claims lack both a string "userId" and a
string "name" field makes the handler panic instead (see the counterexample),
so that case does propagate beyond the request. -/
theorem c6_amended_validator_failure_local (cfg : Config)
    (auth : String → Option Claims) (k : Nat) (tb t : String) (gs : GState)
    (hres : ResolveIDToken tb = (t, true)) (hfail : auth t = none) :
    login cfg auth k tb gs
      = (sendText k "login>:Not Authorized" gs, LoginOutcome.replied)
    ∧ ((sendText k "login>:Not Authorized" gs).heap k).userID
        = (gs.heap k).userID
    ∧ ((sendText k "login>:Not Authorized" gs).heap k).closeCalls
        = (gs.heap k).closeCalls
    ∧ (sendText k "login>:Not Authorized" gs).storage = gs.storage := by
  refine ⟨?_, by simp [sendText, hupd], by simp [sendText, hupd],
          by simp [sendText]⟩
  simp [login, hres, hfail]

/-- Witness for c6_amended_validator_failure_local: the token "zz" fails
validation and the session just receives the refusal reply. -/
theorem c6_amended_validator_failure_local_witness :
    login cfgT authT 0 "Bearer zz" regOne
      = (sendText 0 "login>:Not Authorized" regOne, LoginOutcome.replied) :=
  (c6_amended_validator_failure_local cfgT authT 0 "Bearer zz" "zz" regOne
    (by decide) (by decide)).1

/-- C7: re-login on an already-authenticated session (one whose device slot
holds the gateway's configured remote-address value, as every session
authenticated by this gateway does).  If the newly resolved identity
(u, cfg.remoteAddr) equals the session's current identity the gateway replies
"ok"; if it differs it replies "go away"; in both cases the registry is
untouched and the session keeps its identity and stays open (a sendText
changes nothing but the sent-frame history, third conjunct). -/
theorem c7_relogin_identity (cfg : Config) (auth : String → Option Claims)
    (k : Nat) (tb t : String) (claims : Claims) (u : String) (gs : GState)
    (hres : ResolveIDToken tb = (t, true))
    (hauth : auth t = some claims)
    (huid : resolveUserID claims = some u)
    (hlogged : (gs.heap k).userID ≠ "")
    (hdev : (gs.heap k).deviceID = cfg.remoteAddr) :
    (((gs.heap k).userID, (gs.heap k).deviceID) = (u, cfg.remoteAddr) →
       login cfg auth k tb gs = (sendText k "ok" gs, LoginOutcome.replied))
    ∧ (((gs.heap k).userID, (gs.heap k).deviceID) ≠ (u, cfg.remoteAddr) →
       login cfg auth k tb gs = (sendText k "go away" gs, LoginOutcome.replied))
    ∧ (∀ msg : String, ((sendText k msg gs).heap k).userID = (gs.heap k).userID
        ∧ ((sendText k msg gs).heap k).deviceID = (gs.heap k).deviceID
        ∧ ((sendText k msg gs).heap k).closeCalls = (gs.heap k).closeCalls
        ∧ (sendText k msg gs).storage = gs.storage) := by
  refine ⟨?_, ?_, ?_⟩
  · intro heq
    have hu : (gs.heap k).userID = u := (Prod.mk.injEq _ _ _ _).mp heq |>.1
    have hun : u ≠ "" := hu ▸ hlogged
    simp [login, hres, hauth, huid, GetInfo, hlogged, hu, hun]
  · intro hne
    have hu : (gs.heap k).userID ≠ u := by
      intro h
      exact hne (by rw [h, hdev])
    simp [login, hres, hauth, huid, GetInfo, hlogged, hu]
  · intro msg
    exact ⟨by simp [sendText, hupd], by simp [sendText, hupd],
           by simp [sendText, hupd], by simp [sendText]⟩

/-- Witness for c7_relogin_identity: alice's session re-logging in as alice
gets "ok"; logging in as bob gets "go away". -/
theorem c7_relogin_identity_witness :
    login cfgT authT 0 "Bearer t1" loggedOne
      = (sendText 0 "ok" loggedOne, LoginOutcome.replied)
    ∧ login cfgT authT 0 "Bearer t2" loggedOne
      = (sendText 0 "go away" loggedOne, LoginOutcome.replied) := by
  have h1 := c7_relogin_identity cfgT authT 0 "Bearer t1" "t1"
    [("userId", GoVal.str "alice")] "alice" loggedOne
    (by decide) (by decide) (by decide) (by decide) (by decide)
  have h2 := c7_relogin_identity cfgT authT 0 "Bearer t2" "t2"
    [("userId", GoVal.str "bob")] "bob" loggedOne
    (by decide) (by decide) (by decide) (by decide) (by decide)
  exact ⟨h1.1 (by decide), h2.2.1 (by decide)⟩

/-- C2: two sessions authenticating in sequence to the same device (both
resolve to cfg.remoteAddr).  After the second successful login the earlier
session (heap key 0) has been closed with (CloseGoingAway,
"OneConnectionPerDevice") while the newer one (heap key 1) is live (never
closed), and the final registry maps contain exactly the newer session: the
earlier one appears in none of the by-id, by-user and by-device mappings. -/
theorem c2_one_connection_per_device (cfg : Config) (auth : String → Option Claims)
    (tb1 tb2 t1 t2 : String) (cl1 cl2 : Claims) (u1 u2 : String)
    (hr1 : ResolveIDToken tb1 = (t1, true)) (ha1 : auth t1 = some cl1)
    (hu1 : resolveUserID cl1 = some u1) (hn1 : u1 ≠ "")
    (hr2 : ResolveIDToken tb2 = (t2, true)) (ha2 : auth t2 = some cl2)
    (hu2 : resolveUserID cl2 = some u2) (hn2 : u2 ≠ "") :
    ((oneDeviceScenario cfg auth tb1 tb2).heap 0).closeCalls
        = [(closeGoingAway, "OneConnectionPerDevice")]
    ∧ ((oneDeviceScenario cfg auth tb1 tb2).heap 1).closeCalls = []
    ∧ (oneDeviceScenario cfg auth tb1 tb2).storage.connectionsByID = [(2, 1)]
    ∧ (oneDeviceScenario cfg auth tb1 tb2).storage.connectionsByDeviceID
        = [(cfg.remoteAddr, 1)]
    ∧ (oneDeviceScenario cfg auth tb1 tb2).storage.connectionsByUserID
        = [(u2, [(cfg.remoteAddr, 1)])]
    ∧ ((oneDeviceScenario cfg auth tb1 tb2).heap 1).sentTexts = ["ok"] := by
  simp [oneDeviceScenario, registerConnection, initialGState, AddNewConnection,
        NewConnection, NewConnectionsStorage, login, hr1, ha1, hu1, hn1, hr2, ha2,
        hu2, hn2, GetInfo, hupd, ConnLogin, OnLogin, removeConnection,
        RemoveConnection, closeConn, Close, sendText, alookup, aerase, ainsert]

/-- Witness for c2_one_connection_per_device: alice logs in on connection 0,
then bob logs in on connection 1, both on the configured device. -/
theorem c2_one_connection_per_device_witness :
    ((oneDeviceScenario cfgT authT "Bearer t1" "Bearer t2").heap 0).closeCalls
        = [(closeGoingAway, "OneConnectionPerDevice")]
    ∧ ((oneDeviceScenario cfgT authT "Bearer t1" "Bearer t2").heap 1).closeCalls
        = [] := by
  have h := c2_one_connection_per_device cfgT authT "Bearer t1" "Bearer t2"
    "t1" "t2" [("userId", GoVal.str "alice")] [("userId", GoVal.str "bob")]
    "alice" "bob" (by decide) (by decide) (by decide) (by decide)
    (by decide) (by decide) (by decide) (by decide)
  exact ⟨h.1, h.2.1⟩
